import Mathlib

/-!
Shallow embedding of the `drf-style-guide` API layer (`src/api/base.py`,
`src/api/mixins.py`, `src/api/views.py`), with theorems checking the
natural-language specification against the code.

Modelling conventions:
- Python dicts carrying request data are association lists `List (String × Value)`.
- Django querysets are `List Model`, where a `Model` is its field dictionary.
- The injected capabilities (`_filter_queryset`, `_paginate_queryset`,
  `_check_object_permissions`) are function-valued fields; `paginate` returns
  `Option` because `BaseAPI.paginate_queryset` returns `None` when the view has
  no paginator.
- Exceptions become an `Except ApiError` result; DRF's exception classes map to
  `ApiError` constructors.
- The external store mutated by a command's `execute` is an abstract state `σ`
  threaded through the write-path actions; each action also returns the list of
  processor-lifecycle events (command construction, `execute()` invocation) it
  performed, which lets "never invoked" claims be stated as facts about traces.
-/

/-- Primitive values appearing in request/response dictionaries. -/
inductive Value where
  | s (v : String)
  | n (v : Nat)
deriving DecidableEq, Repr

/-- Python `str()` on a primitive value. -/
def Value.str : Value → String
  | .s v => v
  | .n v => toString v

/-- A domain object, reduced to its field dictionary. -/
structure Model where
  fields : List (String × Value)
deriving DecidableEq, Repr

/-- Attribute access `obj.field` used by Django's field-equality filter. -/
def Model.get (m : Model) (k : String) : Option Value :=
  (m.fields.find? (fun kv => kv.1 == k)).map (fun kv => kv.2)

/-- Dictionary lookup on an association list: `d[k]` returning `none` for a missing key. -/
def lookupParam (ps : List (String × Value)) (k : String) : Option Value :=
  (ps.find? (fun kv => kv.1 == k)).map (fun kv => kv.2)

/-- The exception taxonomy of the layer (`rest_framework` exceptions plus
Python `AssertionError` raised by the `assert` statement in `get_object`). -/
inductive ApiError where
  | notFound
  | permissionDenied
  | validationError (missing : List String)
  | assertionError
deriving DecidableEq, Repr

/-- Serialized response payloads (`serializer.data`): a dict for a single
object, an array of dicts for `many=True`, or some other primitive. -/
inductive Data where
  | dict (entries : List (String × Value))
  | array (items : List (List (String × Value)))
  | prim (v : Value)
deriving DecidableEq, Repr

/-- Serializing one object (`self.get_serializer(instance).data`). -/
def serialize_model (m : Model) : Data :=
  .dict m.fields

/-- Serializing a sequence (`self.get_serializer(queryset, many=True).data`). -/
def serialize_many (ms : List Model) : Data :=
  .array (ms.map Model.fields)

/-- The request-scoped state of `BaseProcessor` (`src/api/base.py` lines 16-42):
the lookup configuration, the URL keyword arguments, and the injected
`check_object_permissions` capability (`true` means the check passes; `false`
means it raises `PermissionDenied`). -/
structure ProcessorCtx where
  lookup_field : String := "pk"
  lookup_url_kwarg : Option String := none
  url_params : List (String × Value)
  check_object_permissions : Model → Bool

/-- The URL kwarg actually used: `self.lookup_url_kwarg or self.lookup_field`. -/
def ProcessorCtx.effective_kwarg (p : ProcessorCtx) : String :=
  p.lookup_url_kwarg.getD p.lookup_field

/-- `BaseProcessor.get_object` (`src/api/base.py` lines 47-62): assert the
lookup kwarg is among the URL parameters, fetch by field equality via
`get_object_or_404` (404 on a miss), then run the permission check before
returning the object. -/
def get_object (p : ProcessorCtx) (queryset : List Model) : Except ApiError Model :=
  match lookupParam p.url_params p.effective_kwarg with
  | none => .error .assertionError
  | some v =>
    match queryset.find? (fun m => m.get p.lookup_field == some v) with
    | none => .error .notFound
    | some obj =>
      if p.check_object_permissions obj then .ok obj else .error .permissionDenied

/-- `BaseQueryProcessor` (`src/api/base.py` lines 71-91): the static
`paginated` class attribute plus the two injected queryset capabilities. -/
structure BaseQueryProcessor where
  paginated : Bool := true
  filter_queryset_cb : List Model → List Model
  paginate_queryset_cb : List Model → Option (List Model)

/-- Method `filter_queryset`: delegate to the injected capability. -/
def BaseQueryProcessor.filter_queryset (q : BaseQueryProcessor) (qs : List Model) : List Model :=
  q.filter_queryset_cb qs

/-- Method `paginate_queryset`: delegate to the injected capability. -/
def BaseQueryProcessor.paginate_queryset (q : BaseQueryProcessor) (qs : List Model) :
    Option (List Model) :=
  q.paginate_queryset_cb qs

/-- `BaseQueryProcessor.filter_and_paginate_queryset` (`src/api/base.py` lines
79-83): `self.paginate_queryset(self.filter_queryset(queryset))`. -/
def BaseQueryProcessor.filter_and_paginate_queryset (q : BaseQueryProcessor)
    (qs : List Model) : Option (List Model) :=
  q.paginate_queryset (q.filter_queryset qs)

/-- Modelled from the spec: `BaseQueryProcessor.execute` is abstract in
`src/api/base.py` (it raises `NotImplementedError`); per spec section 4.2, a
collection query's `execute` applies `filter` then `paginate` to its source
collection. `ListQuery` packages a query processor with its source collection
and that spec-modelled `execute`. -/
structure ListQuery where
  base : BaseQueryProcessor
  source : List Model

/-- Modelled from the spec: collection `execute` = filter then paginate,
realized through the processor's own `filter_and_paginate_queryset`. -/
def ListQuery.execute (q : ListQuery) : Option (List Model) :=
  q.base.filter_and_paginate_queryset q.source

/-- `ListAPIMixin.list` (`src/api/mixins.py` lines 29-37): run the query's
`execute`, serialize the result with `many=True`, and return it together with
the processor's `paginated` class attribute. When `execute` yields no page
(the paginate capability returned `None`), serialization of `None` fails in
the source, modelled here as `none`. -/
def ListAPIMixin.list (q : ListQuery) : Option (Data × Bool) :=
  match q.execute with
  | none => none
  | some page => some (serialize_many page, q.base.paginated)

/-- The two response shapes a list view can produce (`src/api/views.py`
lines 26-33): the paginator's envelope, or a bare `Response(data)`. -/
inductive ListResponse where
  | paginatedEnvelope (d : Data)
  | bare (d : Data)
deriving DecidableEq, Repr

/-- `ListAPI.get` (`src/api/views.py` lines 26-33): dispatch on the flag
returned by `list`. -/
def ListAPI.get (q : ListQuery) : Option ListResponse :=
  match ListAPIMixin.list q with
  | none => none
  | some (d, isPaginated) =>
    if isPaginated then some (.paginatedEnvelope d) else some (.bare d)

/-- `RetrieveAPIMixin.retrieve` (`src/api/mixins.py` lines 40-46). Modelled
from the spec for the `execute` part: the single-object query's `execute` is
abstract in `src/api/base.py`; per spec sections 4.1/4.5 it resolves one
object through the shared lookup algorithm `get_object` on a caller-supplied
collection, which `retrieve` then serializes. -/
def RetrieveAPIMixin.retrieve (p : ProcessorCtx) (queryset : List Model) :
    Except ApiError Data :=
  match get_object p queryset with
  | .error e => .error e
  | .ok obj => .ok (serialize_model obj)

/-- A command processor's constructor state (`BaseProcessor.__init__`,
`src/api/base.py` lines 22-42): the request data it was handed (absent for
destroy) and the `partial_update` flag. -/
structure CommandProcessor where
  request_data : Option (List (String × Value)) := none
  partial_update : Bool := false
deriving DecidableEq, Repr

/-- Processor-lifecycle events recorded by the write-path actions. -/
inductive Event where
  | commandBuilt (request_data : Option (List (String × Value))) (partial_update : Bool)
  | executed
deriving DecidableEq, Repr

/-- The serializer's body-validation capability: given the raw request body
and the `partial` flag, either fail with an `ApiError` (DRF raises
`ValidationError` from `is_valid(raise_exception=True)`) or produce the
`validated_data` handed to the command. -/
abbrev Validator : Type :=
  List (String × Value) → Bool → Except ApiError (List (String × Value))

/-- `CreateAPIMixin.create` (`src/api/mixins.py` lines 9-20): validate the
body (serializer built without a `partial` argument, so `partial=False`),
then build a command with the validated data, run it against the store, and
serialize its result. Returns (outcome, final store, lifecycle events). -/
def CreateAPIMixin.create {σ : Type} (validate : Validator)
    (execute : CommandProcessor → σ → σ × Model)
    (body : List (String × Value)) (store : σ) :
    Except ApiError Data × σ × List Event :=
  match validate body false with
  | .error e => (.error e, store, [])
  | .ok validated =>
    let command : CommandProcessor := { request_data := some validated }
    let r := execute command store
    (.ok (serialize_model r.2), r.1,
      [.commandBuilt (some validated) false, .executed])

/-- `CreateAPIMixin.get_success_headers` (`src/api/mixins.py` lines 22-26):
`{"Location": str(data[URL_FIELD_NAME])}` with `TypeError` (non-dict data)
and `KeyError` (missing key) both swallowed into empty headers. -/
def CreateAPIMixin.get_success_headers (urlField : String) : Data → List (String × String)
  | .dict entries =>
    match entries.find? (fun kv => kv.1 == urlField) with
    | some kv => [("Location", kv.2.str)]
    | none => []
  | .array _ => []
  | .prim _ => []

/-- An HTTP response as assembled by the view classes. -/
structure HttpResponse where
  status : Nat
  body : Option Data
  headers : List (String × String)
deriving DecidableEq, Repr

/-- `CreateAPI.post` (`src/api/views.py` lines 19-23): run `create`, compute
success headers from the response data, and answer 201. A `ValidationError`
from `create` propagates. -/
def CreateAPI.post {σ : Type} (urlField : String) (validate : Validator)
    (execute : CommandProcessor → σ → σ × Model)
    (body : List (String × Value)) (store : σ) :
    Except ApiError HttpResponse × σ :=
  match CreateAPIMixin.create validate execute body store with
  | (.error e, st, _) => (.error e, st)
  | (.ok d, st, _) =>
    (.ok { status := 201, body := some d,
           headers := CreateAPIMixin.get_success_headers urlField d }, st)

/-- The keyword arguments reaching `update` (`**kwargs`): the optional
`"partial"` entry that `update` pops, plus any other entries. -/
structure Kwargs where
  partial_flag : Option Bool := none
  extra : List (String × Value) := []

/-- `UpdateAPIMixin.update` (`src/api/mixins.py` lines 49-62): pop `partial`
(default `False`), validate the body with that flag, build a command with the
validated data and the flag, run it, serialize its result. -/
def UpdateAPIMixin.update {σ : Type} (validate : Validator)
    (execute : CommandProcessor → σ → σ × Model)
    (body : List (String × Value)) (kwargs : Kwargs) (store : σ) :
    Except ApiError Data × σ × List Event :=
  let flag := kwargs.partial_flag.getD false
  match validate body flag with
  | .error e => (.error e, store, [])
  | .ok validated =>
    let command : CommandProcessor :=
      { request_data := some validated, partial_update := flag }
    let r := execute command store
    (.ok (serialize_model r.2), r.1,
      [.commandBuilt (some validated) flag, .executed])

/-- `UpdateAPIMixin.partial_update` (`src/api/mixins.py` lines 64-67):
set `kwargs["partial"] = True` and delegate to `update`. -/
def UpdateAPIMixin.partial_update {σ : Type} (validate : Validator)
    (execute : CommandProcessor → σ → σ × Model)
    (body : List (String × Value)) (kwargs : Kwargs) (store : σ) :
    Except ApiError Data × σ × List Event :=
  UpdateAPIMixin.update validate execute body
    { kwargs with partial_flag := some true } store

/-- `DestroyAPIMixin.destroy` (`src/api/mixins.py` lines 70-74): build a
command with no request data, call `execute()`, discard its result, return
nothing. -/
def DestroyAPIMixin.destroy {σ : Type}
    (execute : CommandProcessor → σ → σ × Model) (store : σ) :
    Option Data × σ × List Event :=
  let command : CommandProcessor := {}
  let r := execute command store
  (none, r.1, [.commandBuilt none false, .executed])

/-- `DestroyAPI.delete` (`src/api/views.py` lines 42-45): run `destroy` and
answer 204 with an empty body. -/
def DestroyAPI.delete {σ : Type}
    (execute : CommandProcessor → σ → σ × Model) (store : σ) :
    HttpResponse × σ :=
  let r := DestroyAPIMixin.destroy execute store
  ({ status := 204, body := none, headers := [] }, r.2.1)

/-- A declared serializer field: its name and whether it is required. -/
structure SerializerField where
  name : String
  required : Bool
deriving DecidableEq, Repr

/-- Modelled from the spec: the serializer capability itself is external
(`BaseSerializer` in `src/api/serializers.py` only inherits from the
framework's `Serializer`); per spec sections 2 and 4.6 it validates the body
against declared fields, and "partial validation skips required-field checks
when `partial=true`". A serializer is its list of declared fields. -/
structure SerializerSpec where
  fields : List SerializerField

/-- Modelled from the spec: `validated_data` is the typed payload — the body
restricted to declared fields. -/
def SerializerSpec.validated_data (s : SerializerSpec)
    (body : List (String × Value)) : List (String × Value) :=
  body.filter (fun kv => s.fields.any (fun fl => fl.name == kv.1))

/-- Modelled from the spec: the required fields absent from the body. -/
def SerializerSpec.missing_required (s : SerializerSpec)
    (body : List (String × Value)) : List String :=
  (s.fields.filter
    (fun fl => fl.required && (body.find? (fun kv => kv.1 == fl.name)).isNone)).map
    SerializerField.name

/-- Modelled from the spec: `is_valid(raise_exception=True)` — with
`partial=true` the missing-required check is skipped; otherwise any missing
required fields raise a `ValidationError` naming them. -/
def SerializerSpec.run_validation (s : SerializerSpec) (body : List (String × Value))
    (partial_flag : Bool) : Except ApiError (List (String × Value)) :=
  if partial_flag then .ok (s.validated_data body)
  else
    match s.missing_required body with
    | [] => .ok (s.validated_data body)
    | missing => .error (.validationError missing)

/-- C2: for every collection query and source collection,
`filter_and_paginate_queryset` returns `paginate(filter(sourceCollection))`
with the injected `filter` capability applied first and the injected
`paginate` capability applied second, in that fixed order. -/
theorem C2_filter_then_paginate (q : BaseQueryProcessor) (qs : List Model) :
    q.filter_and_paginate_queryset qs =
      q.paginate_queryset_cb (q.filter_queryset_cb qs) := rfl

/-- C10: `get_object` fails with `AssertionError` (not `NotFound`) when the
configured lookup URL kwarg is absent from the URL parameters; when the key
is present the assertion branch is unreachable and `get_object` proceeds to
the fetch, never yielding `AssertionError`. -/
theorem C10_missing_kwarg_asserts (p : ProcessorCtx) (qs : List Model) :
    (lookupParam p.url_params p.effective_kwarg = none →
      get_object p qs = .error .assertionError) ∧
    (∀ v, lookupParam p.url_params p.effective_kwarg = some v →
      get_object p qs ≠ .error .assertionError) := by
  constructor
  · intro h
    simp [get_object, h]
  · intro v h
    simp only [get_object, h]
    cases hf : qs.find? (fun m => m.get p.lookup_field == some v) with
    | none => simp
    | some obj =>
      by_cases hp : p.check_object_permissions obj <;> simp [hp]

/-- Lookup context with no URL parameters at all. -/
def c10CtxNoKey : ProcessorCtx :=
  { url_params := [], check_object_permissions := fun _ => true }

/-- Lookup context whose URL parameters carry the default `"pk"` key. -/
def c10CtxWithKey : ProcessorCtx :=
  { url_params := [("pk", .n 1)], check_object_permissions := fun _ => true }

/-- C10 witness: both branches of the theorem at concrete inputs. -/
theorem C10_missing_kwarg_asserts_witness :
    (lookupParam c10CtxNoKey.url_params c10CtxNoKey.effective_kwarg = none ∧
      get_object c10CtxNoKey [] = .error .assertionError) ∧
    (lookupParam c10CtxWithKey.url_params c10CtxWithKey.effective_kwarg = some (.n 1) ∧
      get_object c10CtxWithKey [] ≠ .error .assertionError) :=
  ⟨⟨rfl, (C10_missing_kwarg_asserts c10CtxNoKey []).1 rfl⟩,
   ⟨rfl, (C10_missing_kwarg_asserts c10CtxWithKey []).2 (.n 1) rfl⟩⟩

/-- C3: with the lookup key present in the URL parameters, `get_object`
extracts the identifier through the configured lookup key, fails `NotFound`
when no object in the supplied collection matches, fails `PermissionDenied`
when the matched object fails the permission check, and otherwise returns the
object; `retrieve` serializes and returns exactly that object, propagating
the same failures. -/
theorem C3_lookup_and_retrieve (p : ProcessorCtx) (qs : List Model) (v : Value)
    (hv : lookupParam p.url_params p.effective_kwarg = some v) :
    (qs.find? (fun m => m.get p.lookup_field == some v) = none →
      get_object p qs = .error .notFound ∧
      RetrieveAPIMixin.retrieve p qs = .error .notFound) ∧
    (∀ obj, qs.find? (fun m => m.get p.lookup_field == some v) = some obj →
      (p.check_object_permissions obj = false →
        get_object p qs = .error .permissionDenied ∧
        RetrieveAPIMixin.retrieve p qs = .error .permissionDenied) ∧
      (p.check_object_permissions obj = true →
        get_object p qs = .ok obj ∧
        RetrieveAPIMixin.retrieve p qs = .ok (serialize_model obj))) := by
  constructor
  · intro hf
    have hg : get_object p qs = .error .notFound := by
      simp [get_object, hv, hf]
    exact ⟨hg, by simp [RetrieveAPIMixin.retrieve, hg]⟩
  · intro obj hf
    constructor
    · intro hp
      have hg : get_object p qs = .error .permissionDenied := by
        simp [get_object, hv, hf, hp]
      exact ⟨hg, by simp [RetrieveAPIMixin.retrieve, hg]⟩
    · intro hp
      have hg : get_object p qs = .ok obj := by
        simp [get_object, hv, hf, hp]
      exact ⟨hg, by simp [RetrieveAPIMixin.retrieve, hg]⟩

/-- A stored object whose `"pk"` field is `1`. -/
def c3Obj : Model := { fields := [("pk", .n 1), ("name", .s "a")] }

/-- Retrieval context addressing `pk = 1` with a passing permission check. -/
def c3Ctx : ProcessorCtx :=
  { url_params := [("pk", .n 1)], check_object_permissions := fun _ => true }

/-- C3 witness: the success branch of the theorem at a concrete input. -/
theorem C3_lookup_and_retrieve_witness :
    lookupParam c3Ctx.url_params c3Ctx.effective_kwarg = some (.n 1) ∧
    [c3Obj].find? (fun m => m.get c3Ctx.lookup_field == some (.n 1)) = some c3Obj ∧
    c3Ctx.check_object_permissions c3Obj = true ∧
    get_object c3Ctx [c3Obj] = .ok c3Obj ∧
    RetrieveAPIMixin.retrieve c3Ctx [c3Obj] = .ok (serialize_model c3Obj) :=
  ⟨rfl, rfl, rfl,
    ((C3_lookup_and_retrieve c3Ctx [c3Obj] (.n 1) rfl).2 c3Obj rfl).2 rfl⟩

/-- A collection query whose processor declares `paginated := false` while its
paginate capability nevertheless produces a bounded one-element page. -/
def c1Query : ListQuery :=
  { base := { paginated := false,
              filter_queryset_cb := fun qs => qs,
              paginate_queryset_cb := fun qs => some (qs.take 1) },
    source := [{ fields := [("pk", .n 1)] }, { fields := [("pk", .n 2)] }] }

/-- C1 counterexample: the flag returned by `list` does not equal whether the
paginate capability actually produced a bounded page. For `c1Query` the
paginate capability produces a bounded page (so the claimed flag would be
`true`), yet `list` returns `false` — the processor's static `paginated`
attribute. -/
theorem C1_flag_counterexample :
    ¬ ((ListAPIMixin.list c1Query).map Prod.snd =
        some (c1Query.base.filter_and_paginate_queryset c1Query.source).isSome) := by
  decide

/-- C1 (amended): the pagination flag returned by `list` alongside the data
equals the processor's declared `paginated` class attribute, regardless of
what the paginate capability did for the request. -/
theorem C1_flag_is_declared_attribute (q : ListQuery) (d : Data) (b : Bool)
    (h : ListAPIMixin.list q = some (d, b)) : b = q.base.paginated := by
  unfold ListAPIMixin.list at h
  split at h
  · exact absurd h (by simp)
  · simp only [Option.some.injEq, Prod.mk.injEq] at h
    exact h.2.symm

/-- A collection query with the default `paginated := true` attribute and an
identity paginate capability. -/
def c1OkQuery : ListQuery :=
  { base := { filter_queryset_cb := fun qs => qs,
              paginate_queryset_cb := fun qs => some qs },
    source := [] }

/-- C1 witness: the amended theorem at a concrete input. -/
theorem C1_flag_is_declared_attribute_witness :
    ListAPIMixin.list c1OkQuery = some (.array [], true) ∧
    true = c1OkQuery.base.paginated :=
  ⟨rfl, C1_flag_is_declared_attribute c1OkQuery (.array []) true rfl⟩

/-- C7: whenever `list` returns data with the pagination flag, the GET handler
of the list view returns the paginated envelope exactly when the flag is true
and a bare response of the serialized data exactly when it is false. -/
theorem C7_get_dispatches_on_flag (q : ListQuery) (d : Data) (b : Bool)
    (h : ListAPIMixin.list q = some (d, b)) :
    ListAPI.get q =
      some (if b then ListResponse.paginatedEnvelope d else ListResponse.bare d) := by
  unfold ListAPI.get
  rw [h]
  cases b <;> rfl

/-- A collection query that opts out of pagination and returns its single
source object unsliced. -/
def c7Query : ListQuery :=
  { base := { paginated := false,
              filter_queryset_cb := fun qs => qs,
              paginate_queryset_cb := fun qs => some qs },
    source := [{ fields := [("pk", .n 7)] }] }

/-- C7 witness: the theorem at a concrete input, on both flag values. -/
theorem C7_get_dispatches_on_flag_witness :
    (ListAPIMixin.list c7Query = some (.array [[("pk", .n 7)]], false) ∧
      ListAPI.get c7Query = some (.bare (.array [[("pk", .n 7)]]))) ∧
    (ListAPIMixin.list c1OkQuery = some (.array [], true) ∧
      ListAPI.get c1OkQuery = some (.paginatedEnvelope (.array []))) :=
  ⟨⟨rfl, C7_get_dispatches_on_flag c7Query (.array [[("pk", .n 7)]]) false rfl⟩,
   ⟨rfl, C7_get_dispatches_on_flag c1OkQuery (.array []) true rfl⟩⟩

/-- C4: for every valid create payload, `post` answers 201 with the
serialized command result as body and with the success headers computed from
the configured URL field name; `get_success_headers` yields a `Location`
header exactly when the data is a dict exposing that field, and empty headers
(never an error) when the field is absent or the data has the wrong type. -/
theorem C4_post_created_with_location {σ : Type} (urlField : String)
    (validate : Validator) (execute : CommandProcessor → σ → σ × Model)
    (body : List (String × Value)) (store : σ)
    (v : List (String × Value)) (hvalid : validate body false = .ok v) :
    (CreateAPI.post urlField validate execute body store =
      (.ok { status := 201,
             body := some (serialize_model (execute { request_data := some v } store).2),
             headers := CreateAPIMixin.get_success_headers urlField
               (serialize_model (execute { request_data := some v } store).2) },
       (execute { request_data := some v } store).1)) ∧
    (∀ entries kv, entries.find? (fun e => e.1 == urlField) = some kv →
      CreateAPIMixin.get_success_headers urlField (.dict entries) =
        [("Location", kv.2.str)]) ∧
    (∀ entries, entries.find? (fun e => e.1 == urlField) = none →
      CreateAPIMixin.get_success_headers urlField (.dict entries) = []) ∧
    (∀ items, CreateAPIMixin.get_success_headers urlField (.array items) = []) ∧
    (∀ pv, CreateAPIMixin.get_success_headers urlField (.prim pv) = []) := by
  refine ⟨?_, ?_, ?_, fun _ => rfl, fun _ => rfl⟩
  · simp [CreateAPI.post, CreateAPIMixin.create, hvalid]
  · intro entries kv h
    simp [CreateAPIMixin.get_success_headers, h]
  · intro entries h
    simp [CreateAPIMixin.get_success_headers, h]

/-- A validator that accepts any body unchanged. -/
def c4Validate : Validator := fun b _ => .ok b

/-- A command whose result exposes a `"url"` field; the store counts calls. -/
def c4Execute : CommandProcessor → Nat → Nat × Model :=
  fun _ n => (n + 1, { fields := [("url", .s "/resources/1"), ("id", .n 1)] })

/-- C4 witness: the theorem at a concrete valid payload, showing the 201
response with its `Location` header, plus the tolerated header cases. -/
theorem C4_post_created_with_location_witness :
    c4Validate [("name", .s "a")] false = .ok [("name", .s "a")] ∧
    CreateAPI.post "url" c4Validate c4Execute [("name", .s "a")] 0 =
      (.ok { status := 201,
             body := some (.dict [("url", .s "/resources/1"), ("id", .n 1)]),
             headers := [("Location", "/resources/1")] }, 1) ∧
    CreateAPIMixin.get_success_headers "url" (.dict [("id", .n 1)]) = [] ∧
    CreateAPIMixin.get_success_headers "url" (.array [[("url", .s "/x")]]) = [] := by
  have h := C4_post_created_with_location "url" c4Validate c4Execute
    [("name", .s "a")] 0 [("name", .s "a")] rfl
  refine ⟨rfl, ?_, h.2.2.1 [("id", .n 1)] rfl, h.2.2.2.1 [[("url", .s "/x")]]⟩
  rw [h.1]
  rfl

/-- C6: `destroy` builds a command with no payload, invokes its `execute()`
exactly once (the final store is one application of `execute`, and the event
trace holds exactly one `executed` event), and returns no payload regardless
of the command's result; the DELETE handler answers 204 with an empty body. -/
theorem C6_destroy_executes_once {σ : Type}
    (execute : CommandProcessor → σ → σ × Model) (store : σ) :
    (DestroyAPIMixin.destroy execute store).1 = none ∧
    (DestroyAPIMixin.destroy execute store).2.1 = (execute {} store).1 ∧
    (DestroyAPIMixin.destroy execute store).2.2.count .executed = 1 ∧
    DestroyAPI.delete execute store =
      ({ status := 204, body := none, headers := [] }, (execute {} store).1) := by
  refine ⟨rfl, rfl, ?_, rfl⟩
  show List.count Event.executed [Event.commandBuilt none false, Event.executed] = 1
  decide

/-- C8: `partial_update` returns exactly what `update` returns on the same
arguments with `partial` forced to true, whatever `partial` entry the
incoming kwargs carried. -/
theorem C8_partial_update_aliases_update {σ : Type} (validate : Validator)
    (execute : CommandProcessor → σ → σ × Model) (body : List (String × Value))
    (kwargs : Kwargs) (store : σ) :
    UpdateAPIMixin.partial_update validate execute body kwargs store =
      UpdateAPIMixin.update validate execute body
        { partial_flag := some true, extra := kwargs.extra } store := rfl

/-- C9: in both `create` and `update`, body validation completes before any
command processor exists: when the validator fails, the error propagates with
the store unchanged and an empty lifecycle trace (no command built, no
`execute()` call); when it succeeds, the one command built receives exactly
the validator's output — the validated data, not the raw body. -/
theorem C9_validation_precedes_command {σ : Type} (validate : Validator)
    (execute : CommandProcessor → σ → σ × Model)
    (body : List (String × Value)) (kwargs : Kwargs) (store : σ) :
    (∀ e, validate body false = .error e →
      CreateAPIMixin.create validate execute body store = (.error e, store, [])) ∧
    (∀ e, validate body (kwargs.partial_flag.getD false) = .error e →
      UpdateAPIMixin.update validate execute body kwargs store = (.error e, store, [])) ∧
    (∀ v, validate body false = .ok v →
      (CreateAPIMixin.create validate execute body store).2.2 =
        [.commandBuilt (some v) false, .executed]) ∧
    (∀ v, validate body (kwargs.partial_flag.getD false) = .ok v →
      (UpdateAPIMixin.update validate execute body kwargs store).2.2 =
        [.commandBuilt (some v) (kwargs.partial_flag.getD false), .executed]) := by
  refine ⟨?_, ?_, ?_, ?_⟩ <;> intro x h <;>
    simp [CreateAPIMixin.create, UpdateAPIMixin.update, h]

/-- A validator that always rejects, blaming a missing `"name"`. -/
def c9ValidateFail : Validator := fun _ _ => .error (.validationError ["name"])

/-- A validator that keeps only the declared `"name"` field. -/
def c9ValidateDrop : Validator :=
  fun b _ => .ok (b.filter (fun kv => kv.1 == "name"))

/-- A counting command: each `execute()` call bumps the store. -/
def c9Execute : CommandProcessor → Nat → Nat × Model :=
  fun _ n => (n + 1, { fields := [] })

/-- C9 witness: a rejected body leaves the store at 0 with no events, and an
accepted body hands the command the filtered validated data, not the raw
body. -/
theorem C9_validation_precedes_command_witness :
    (c9ValidateFail [("junk", .n 1)] false = .error (.validationError ["name"]) ∧
      CreateAPIMixin.create c9ValidateFail c9Execute [("junk", .n 1)] 0 =
        (.error (.validationError ["name"]), 0, [])) ∧
    (c9ValidateDrop [("name", .s "a"), ("junk", .n 1)] false = .ok [("name", .s "a")] ∧
      (CreateAPIMixin.create c9ValidateDrop c9Execute
          [("name", .s "a"), ("junk", .n 1)] 0).2.2 =
        [.commandBuilt (some [("name", .s "a")]) false, .executed]) :=
  ⟨⟨rfl, (C9_validation_precedes_command c9ValidateFail c9Execute
      [("junk", .n 1)] {} 0).1 (.validationError ["name"]) rfl⟩,
   ⟨rfl, (C9_validation_precedes_command c9ValidateDrop c9Execute
      [("name", .s "a"), ("junk", .n 1)] {} 0).2.2.1 [("name", .s "a")] rfl⟩⟩

/-- C5: for an update payload omitting a declared required field, `update`
with `partial=true` never fails with a missing-required-field
`ValidationError` for the omitted field, while `update` with `partial=false`
fails with a `ValidationError` naming it. -/
theorem C5_partial_skips_required {σ : Type} (s : SerializerSpec)
    (execute : CommandProcessor → σ → σ × Model)
    (body : List (String × Value)) (extra : List (String × Value)) (store : σ)
    (f : String) (hreq : (⟨f, true⟩ : SerializerField) ∈ s.fields)
    (hmiss : body.find? (fun kv => kv.1 == f) = none) :
    (∀ l, (UpdateAPIMixin.update s.run_validation execute body
        { partial_flag := some true, extra := extra } store).1 ≠
      .error (.validationError l)) ∧
    (∃ l, (UpdateAPIMixin.update s.run_validation execute body
        { partial_flag := some false, extra := extra } store).1 =
      .error (.validationError l) ∧ f ∈ l) := by
  constructor
  · intro l h
    simp [UpdateAPIMixin.update, SerializerSpec.run_validation] at h
  · have hfmem : f ∈ s.missing_required body := by
      unfold SerializerSpec.missing_required
      refine List.mem_map.mpr ⟨⟨f, true⟩, List.mem_filter.mpr ⟨hreq, ?_⟩, rfl⟩
      simp [hmiss]
    cases hm : s.missing_required body with
    | nil => rw [hm] at hfmem; cases hfmem
    | cons a as =>
      refine ⟨a :: as, ?_, hm ▸ hfmem⟩
      simp [UpdateAPIMixin.update, SerializerSpec.run_validation, hm]

/-- A serializer declaring a required `"name"` and an optional `"age"`. -/
def c5Spec : SerializerSpec :=
  { fields := [{ name := "name", required := true },
               { name := "age", required := false }] }

/-- A command that ignores its input on an unchanging store. -/
def c5Execute : CommandProcessor → Nat → Nat × Model :=
  fun _ n => (n, { fields := [] })

/-- C5 witness: the theorem at a concrete payload omitting `"name"`. -/
theorem C5_partial_skips_required_witness :
    ((⟨"name", true⟩ : SerializerField) ∈ c5Spec.fields ∧
      ([("age", Value.n 3)] : List (String × Value)).find?
        (fun kv => kv.1 == "name") = none) ∧
    (∀ l, (UpdateAPIMixin.update c5Spec.run_validation c5Execute [("age", .n 3)]
        { partial_flag := some true, extra := [] } 0).1 ≠
      .error (.validationError l)) ∧
    (∃ l, (UpdateAPIMixin.update c5Spec.run_validation c5Execute [("age", .n 3)]
        { partial_flag := some false, extra := [] } 0).1 =
      .error (.validationError l) ∧ "name" ∈ l) :=
  ⟨⟨by decide, rfl⟩,
   C5_partial_skips_required c5Spec c5Execute [("age", .n 3)] [] 0 "name"
     (by decide) rfl⟩
